import Mathlib

/- Shallow embedding of src/Scripts/S3-Raw-Zone-Lambda-Trigger.py.

The source is a single AWS Lambda handler `lambda_handler(event, context)`
that builds a Glue client via `boto3.client('glue')`, issues one
`start_job_run(JobName="ad_etl")` request, and returns either a success
mapping with the response's `JobRunId` or, under `except Exception as e`,
a failure mapping carrying `str(e)`.

The ambient behavior of `boto3` (client construction and the remote call)
is modelled as an explicit environment argument; Python dictionaries with
string keys and values are association lists; a raised Python error is a
value recording whether it derives from `Exception` (and is therefore
caught by `except Exception`) together with its `str(e)` text. -/

/-- A raised Python error: `isException` tells whether it is an instance of
`Exception` (so `except Exception` catches it; `BaseException`s such as
`SystemExit` or `KeyboardInterrupt` have `isException = false`), and `msg`
is its stringification `str(e)`. -/
structure PyError where
  isException : Bool
  msg : String
  deriving DecidableEq

/-- Outcome of evaluating a Python expression: a value, or a raised error. -/
inductive PyResult (α : Type) where
  | ok : α → PyResult α
  | raised : PyError → PyResult α
  deriving DecidableEq

/-- Association-list model of a Python `dict` with string keys and string
values, in insertion order. -/
abbrev PyDict := List (String × String)

/-- Python dict subscript `d[k]`: the value at `k`, or a raised
`KeyError(k)` when the key is absent. `KeyError` derives from `Exception`,
and `str(KeyError(k))` is the key wrapped in single quotes. -/
def dictGet (d : PyDict) (k : String) : PyResult String :=
  match d.lookup k with
  | some v => PyResult.ok v
  | none => PyResult.raised ⟨true, "'" ++ k ++ "'"⟩

/-- Python `k in d` membership test for the dict model. -/
def hasKey (d : PyDict) (k : String) : Bool :=
  (d.lookup k).isSome

/-- The Glue client object returned by `boto3.client("glue")`: its
`start_job_run` method takes a job name and either returns the service's
response mapping or raises. -/
structure GlueClient where
  start_job_run : String → PyResult PyDict

/-- Ambient behavior of the `boto3` module: `boto3.client(service)` either
returns a client object or raises. -/
structure Boto3 where
  client : String → PyResult GlueClient

/-- Result of running a block of Python statements: the value produced or
the error raised, together with the job names for which a `start_job_run`
request was issued while the block ran. -/
structure PyOut (α : Type) where
  res : PyResult α
  calls : List String

/-- Sequencing of Python statements: a raised error aborts the rest of the
block, and the requests issued before the abort are kept. -/
def PyOut.bind {α β : Type} (x : PyOut α) (f : α → PyOut β) : PyOut β :=
  match x.res with
  | PyResult.ok a => ⟨(f a).res, x.calls ++ (f a).calls⟩
  | PyResult.raised e => ⟨PyResult.raised e, x.calls⟩

/-- The `try` block of `lambda_handler` (source lines 19-32): build the
Glue client, issue `start_job_run(JobName="ad_etl")` — which logs one
request whether the call returns or raises — and build the success mapping
from the `JobRunId` field of the response. -/
def tryBody (b : Boto3) : PyOut PyDict :=
  PyOut.bind ⟨b.client "glue", []⟩ (fun glue_client =>
  PyOut.bind ⟨glue_client.start_job_run "ad_etl", ["ad_etl"]⟩ (fun response =>
  PyOut.bind ⟨dictGet response "JobRunId", []⟩ (fun jid =>
  ⟨PyResult.ok [("JobRunId", jid),
                ("Message", "Glue job for ad_etl started successfully")], []⟩)))

/-- Outcome of one handler invocation: a returned mapping, or an uncaught
raised error propagating to the caller. -/
inductive HResult where
  | ret : PyDict → HResult
  | uncaught : PyError → HResult
  deriving DecidableEq

/-- `lambda_handler(event, context)` (source lines 3-39): run the `try`
block; `except Exception as e` (line 34) converts a raised error deriving
from `Exception` into the failure mapping, while any other raised error
propagates uncaught. The second component lists the `start_job_run`
requests issued during the invocation. `event` and `context` are accepted
but never read, exactly as in the source. -/
def lambda_handler {E C : Type} (b : Boto3) (event : E) (context : C) :
    HResult × List String :=
  let body := tryBody b
  match body.res with
  | PyResult.ok d => (HResult.ret d, body.calls)
  | PyResult.raised e =>
      if e.isException then
        (HResult.ret [("Error", e.msg), ("Message", "Failed to start Glue job")],
         body.calls)
      else
        (HResult.uncaught e, body.calls)

/-- Environment whose remote call succeeds with run identifier `jr_123`. -/
def okBoto : Boto3 :=
  ⟨fun _ => PyResult.ok ⟨fun _ => PyResult.ok [("JobRunId", "jr_123")]⟩⟩

/-- Environment whose remote call raises an `Exception` stringifying to
`AccessDenied`. -/
def accessDeniedBoto : Boto3 :=
  ⟨fun _ => PyResult.ok ⟨fun _ => PyResult.raised ⟨true, "AccessDenied"⟩⟩⟩

/-- Environment where `boto3.client` itself raises an `Exception`. -/
def clientFailBoto : Boto3 :=
  ⟨fun _ => PyResult.raised ⟨true, "Unable to locate credentials"⟩⟩

/-- Environment where client construction succeeds and the remote call
raises the same error text as `clientFailBoto`'s construction failure. -/
def callFailBoto : Boto3 :=
  ⟨fun _ => PyResult.ok
    ⟨fun _ => PyResult.raised ⟨true, "Unable to locate credentials"⟩⟩⟩

/-- Environment where `boto3.client` raises a `BaseException` that is not
an `Exception`, as `SystemExit` would. -/
def sysExitBoto : Boto3 :=
  ⟨fun _ => PyResult.raised ⟨false, "SystemExit"⟩⟩

/-- Environment whose remote call succeeds but whose response mapping lacks
the `JobRunId` field. -/
def noRunIdBoto : Boto3 :=
  ⟨fun _ => PyResult.ok ⟨fun _ => PyResult.ok [("ResponseMetadata", "meta")]⟩⟩

/-- The success mapping the handler returns under `okBoto`. -/
def succDict : PyDict :=
  [("JobRunId", "jr_123"), ("Message", "Glue job for ad_etl started successfully")]

/-- C3: if client construction succeeds and the remote service accepts the
`start_job_run` request with a response whose `JobRunId` field is
`jr_123`, the handler returns exactly the mapping with that run id and the
fixed success message. -/
theorem C3_success_passthrough {E C : Type} (b : Boto3) (e : E) (c : C)
    (gc : GlueClient) (resp : PyDict)
    (h1 : b.client "glue" = PyResult.ok gc)
    (h2 : gc.start_job_run "ad_etl" = PyResult.ok resp)
    (h3 : resp.lookup "JobRunId" = some "jr_123") :
    (lambda_handler b e c).1 =
      HResult.ret [("JobRunId", "jr_123"),
                   ("Message", "Glue job for ad_etl started successfully")] := by
  simp [lambda_handler, tryBody, PyOut.bind, dictGet, h1, h2, h3]

/-- C3 witness: under `okBoto` the handler returns the exact success
mapping for run id `jr_123`. -/
theorem C3_witness :
    (lambda_handler okBoto (0 : Nat) (0 : Nat)).1 =
      HResult.ret [("JobRunId", "jr_123"),
                   ("Message", "Glue job for ad_etl started successfully")] :=
  C3_success_passthrough okBoto 0 0
    ⟨fun _ => PyResult.ok [("JobRunId", "jr_123")]⟩
    [("JobRunId", "jr_123")] rfl rfl rfl

/-- C1 counterexample: under an environment whose client construction
raises a `BaseException` that is not an `Exception` (as `SystemExit`
would), the handler does not return a mapping: the raised error propagates
to the caller, refuting the claim that it never does for every behavior of
the remote client. -/
theorem C1_counterexample :
    (lambda_handler sysExitBoto (0 : Nat) (0 : Nat)).1 =
      HResult.uncaught ⟨false, "SystemExit"⟩ := rfl

/-- C1 amended: for every input pair and every environment all of whose
raised errors derive from `Exception`, the handler returns a mapping that
contains a `Message` key and propagates no raised error. -/
theorem C1_total_with_message {E C : Type} (b : Boto3) (e : E) (c : C)
    (hexc : ∀ err, (tryBody b).res = PyResult.raised err →
      err.isException = true) :
    ∃ d, (lambda_handler b e c).1 = HResult.ret d ∧
      hasKey d "Message" = true := by
  cases h1 : b.client "glue" with
  | raised err =>
      have hb : (tryBody b).res = PyResult.raised err := by
        simp [tryBody, PyOut.bind, h1]
      have := hexc err hb
      refine ⟨[("Error", err.msg), ("Message", "Failed to start Glue job")], ?_, rfl⟩
      simp [lambda_handler, tryBody, PyOut.bind, h1, this]
  | ok gc =>
      cases h2 : gc.start_job_run "ad_etl" with
      | raised err =>
          have hb : (tryBody b).res = PyResult.raised err := by
            simp [tryBody, PyOut.bind, h1, h2]
          have := hexc err hb
          refine ⟨[("Error", err.msg), ("Message", "Failed to start Glue job")], ?_, rfl⟩
          simp [lambda_handler, tryBody, PyOut.bind, h1, h2, this]
      | ok resp =>
          cases h3 : resp.lookup "JobRunId" with
          | none =>
              refine ⟨[("Error", "'JobRunId'"),
                       ("Message", "Failed to start Glue job")], ?_, rfl⟩
              simp [lambda_handler, tryBody, PyOut.bind, dictGet, h1, h2, h3]
          | some jid =>
              refine ⟨[("JobRunId", jid),
                       ("Message", "Glue job for ad_etl started successfully")],
                      ?_, ?_⟩
              · simp [lambda_handler, tryBody, PyOut.bind, dictGet, h1, h2, h3]
              · simp [hasKey]

/-- C1 witness: under `okBoto` the handler returns a mapping containing a
`Message` key. -/
theorem C1_witness :
    ∃ d, (lambda_handler okBoto (0 : Nat) (0 : Nat)).1 = HResult.ret d ∧
      hasKey d "Message" = true :=
  C1_total_with_message okBoto 0 0
    (by intro err h; simp [tryBody, PyOut.bind, okBoto, dictGet] at h)

/-- C2: every mapping the handler returns contains exactly one of the keys
`JobRunId` and `Error` — never both and never neither. -/
theorem C2_exactly_one {E C : Type} (b : Boto3) (e : E) (c : C) (d : PyDict)
    (h : (lambda_handler b e c).1 = HResult.ret d) :
    (hasKey d "JobRunId" = true ∧ hasKey d "Error" = false) ∨
    (hasKey d "JobRunId" = false ∧ hasKey d "Error" = true) := by
  cases h1 : b.client "glue" with
  | raised err =>
      by_cases he : err.isException = true
      · simp [lambda_handler, tryBody, PyOut.bind, h1, he] at h
        subst h
        right
        constructor <;> rfl
      · simp [lambda_handler, tryBody, PyOut.bind, h1, he] at h
  | ok gc =>
      cases h2 : gc.start_job_run "ad_etl" with
      | raised err =>
          by_cases he : err.isException = true
          · simp [lambda_handler, tryBody, PyOut.bind, h1, h2, he] at h
            subst h
            right
            constructor <;> rfl
          · simp [lambda_handler, tryBody, PyOut.bind, h1, h2, he] at h
      | ok resp =>
          cases h3 : resp.lookup "JobRunId" with
          | none =>
              simp [lambda_handler, tryBody, PyOut.bind, dictGet, h1, h2, h3] at h
              subst h
              right
              constructor <;> rfl
          | some jid =>
              simp [lambda_handler, tryBody, PyOut.bind, dictGet, h1, h2, h3] at h
              subst h
              left
              constructor <;> rfl

/-- C2 witness: the success mapping returned under `okBoto` has `JobRunId`
and lacks `Error`. -/
theorem C2_witness :
    (hasKey succDict "JobRunId" = true ∧ hasKey succDict "Error" = false) ∨
    (hasKey succDict "JobRunId" = false ∧ hasKey succDict "Error" = true) :=
  C2_exactly_one okBoto (0 : Nat) (0 : Nat) succDict rfl

/-- C4: if client construction succeeds and the remote call raises an
error deriving from `Exception`, the handler returns exactly the failure
mapping whose `Error` value is that error's stringification; in particular
an error stringifying to `AccessDenied` yields
`[("Error", "AccessDenied"), ("Message", "Failed to start Glue job")]`. -/
theorem C4_error_stringified {E C : Type} (b : Boto3) (e : E) (c : C)
    (gc : GlueClient) (err : PyError)
    (h1 : b.client "glue" = PyResult.ok gc)
    (h2 : gc.start_job_run "ad_etl" = PyResult.raised err)
    (h3 : err.isException = true) :
    (lambda_handler b e c).1 =
      HResult.ret [("Error", err.msg), ("Message", "Failed to start Glue job")] := by
  simp [lambda_handler, tryBody, PyOut.bind, h1, h2, h3]

/-- C4 witness: under `accessDeniedBoto` the handler returns exactly the
failure mapping with `Error` bound to `AccessDenied`. -/
theorem C4_witness :
    (lambda_handler accessDeniedBoto (0 : Nat) (0 : Nat)).1 =
      HResult.ret [("Error", "AccessDenied"),
                   ("Message", "Failed to start Glue job")] :=
  C4_error_stringified accessDeniedBoto 0 0
    ⟨fun _ => PyResult.raised ⟨true, "AccessDenied"⟩⟩
    ⟨true, "AccessDenied"⟩ rfl rfl rfl

/-- C5 counterexample: under an environment whose client construction
raises, the invocation issues zero `start_job_run` requests, refuting the
claim that exactly one request is issued regardless of whether client
acquisition succeeds or fails. -/
theorem C5_counterexample :
    (lambda_handler clientFailBoto (0 : Nat) (0 : Nat)).2.length ≠ 1 := by
  decide

/-- C5 amended: at most one `start_job_run` request is issued per
invocation — exactly one (independent of event and context) when client
construction succeeds, and none when it raises. -/
theorem C5_at_most_one_call {E C : Type} (b : Boto3) (e : E) (c : C) :
    (lambda_handler b e c).2 =
      (match b.client "glue" with
       | PyResult.ok _ => ["ad_etl"]
       | PyResult.raised _ => []) := by
  cases h1 : b.client "glue" with
  | raised err =>
      by_cases he : err.isException = true <;>
        simp [lambda_handler, tryBody, PyOut.bind, h1, he]
  | ok gc =>
      cases h2 : gc.start_job_run "ad_etl" with
      | raised err =>
          by_cases he : err.isException = true <;>
            simp [lambda_handler, tryBody, PyOut.bind, h1, h2, he]
      | ok resp =>
          cases h3 : resp.lookup "JobRunId" with
          | none => simp [lambda_handler, tryBody, PyOut.bind, dictGet, h1, h2, h3]
          | some jid => simp [lambda_handler, tryBody, PyOut.bind, dictGet, h1, h2, h3]

/-- C6: across any two invocations with arbitrary, possibly different,
event and context values, the handler behaves identically — requests
included — and every `start_job_run` request it issues names the fixed
constant `ad_etl`. -/
theorem C6_job_name_constant {E C F G : Type} (b : Boto3)
    (e : E) (c : C) (e2 : F) (c2 : G) :
    lambda_handler b e c = lambda_handler b e2 c2 ∧
    (lambda_handler b e c).2.all (fun n => n == "ad_etl") = true := by
  refine ⟨rfl, ?_⟩
  cases h1 : b.client "glue" with
  | raised err =>
      by_cases he : err.isException = true <;>
        simp [lambda_handler, tryBody, PyOut.bind, h1, he]
  | ok gc =>
      cases h2 : gc.start_job_run "ad_etl" with
      | raised err =>
          by_cases he : err.isException = true <;>
            simp [lambda_handler, tryBody, PyOut.bind, h1, h2, he]
      | ok resp =>
          cases h3 : resp.lookup "JobRunId" with
          | none => simp [lambda_handler, tryBody, PyOut.bind, dictGet, h1, h2, h3]
          | some jid => simp [lambda_handler, tryBody, PyOut.bind, dictGet, h1, h2, h3]

/-- C7: a raised error during client construction and the same raised
error during the remote call lead the handler to the very same outcome:
acquisition failures go through the same error-to-result conversion as
remote-call failures. -/
theorem C7_acquisition_like_call_failure {E C : Type}
    (b1 b2 : Boto3) (e : E) (c : C) (err : PyError) (gc : GlueClient)
    (h1 : b1.client "glue" = PyResult.raised err)
    (h2 : b2.client "glue" = PyResult.ok gc)
    (h3 : gc.start_job_run "ad_etl" = PyResult.raised err) :
    (lambda_handler b1 e c).1 = (lambda_handler b2 e c).1 := by
  by_cases he : err.isException = true <;>
    simp [lambda_handler, tryBody, PyOut.bind, h1, h2, h3, he]

/-- C7 witness: a credentials failure raised while building the client and
the same failure raised by the remote call yield the same returned
mapping. -/
theorem C7_witness :
    (lambda_handler clientFailBoto (0 : Nat) (0 : Nat)).1 =
      (lambda_handler callFailBoto (0 : Nat) (0 : Nat)).1 :=
  C7_acquisition_like_call_failure clientFailBoto callFailBoto 0 0
    ⟨true, "Unable to locate credentials"⟩
    ⟨fun _ => PyResult.raised ⟨true, "Unable to locate credentials"⟩⟩
    rfl rfl rfl

/-- C8: when the remote call succeeds but the response mapping lacks the
`JobRunId` field, the lookup's `KeyError` is caught and the handler
returns the failure mapping whose `Error` value is the `KeyError`'s
stringification — even though one `start_job_run` request was issued. -/
theorem C8_missing_run_id {E C : Type} (b : Boto3) (e : E) (c : C)
    (gc : GlueClient) (resp : PyDict)
    (h1 : b.client "glue" = PyResult.ok gc)
    (h2 : gc.start_job_run "ad_etl" = PyResult.ok resp)
    (h3 : resp.lookup "JobRunId" = none) :
    lambda_handler b e c =
      (HResult.ret [("Error", "'JobRunId'"),
                    ("Message", "Failed to start Glue job")], ["ad_etl"]) := by
  simp [lambda_handler, tryBody, PyOut.bind, dictGet, h1, h2, h3]

/-- C8 witness: under `noRunIdBoto` the handler returns the `KeyError`
failure mapping after having issued one request. -/
theorem C8_witness :
    lambda_handler noRunIdBoto (0 : Nat) (0 : Nat) =
      (HResult.ret [("Error", "'JobRunId'"),
                    ("Message", "Failed to start Glue job")], ["ad_etl"]) :=
  C8_missing_run_id noRunIdBoto 0 0
    ⟨fun _ => PyResult.ok [("ResponseMetadata", "meta")]⟩
    [("ResponseMetadata", "meta")] rfl rfl rfl

/-- C9: the catch-all converts exactly the raised errors that derive from
`Exception`: when the try block raises, the handler returns the failure
mapping if the error is an `Exception` instance and otherwise lets the
error propagate uncaught. -/
theorem C9_catches_exactly_exception {E C : Type} (b : Boto3) (e : E) (c : C)
    (err : PyError) (h : (tryBody b).res = PyResult.raised err) :
    (lambda_handler b e c).1 =
      (if err.isException then
        HResult.ret [("Error", err.msg), ("Message", "Failed to start Glue job")]
      else HResult.uncaught err) := by
  by_cases he : err.isException = true <;>
    simp [lambda_handler, h, he]

/-- C9 witness: under `sysExitBoto` the raised non-`Exception` error
propagates out of the handler uncaught. -/
theorem C9_witness :
    (lambda_handler sysExitBoto (0 : Nat) (0 : Nat)).1 =
      (if (PyError.mk false "SystemExit").isException then
        HResult.ret [("Error", "SystemExit"),
                     ("Message", "Failed to start Glue job")]
      else HResult.uncaught ⟨false, "SystemExit"⟩) :=
  C9_catches_exactly_exception sysExitBoto 0 0 ⟨false, "SystemExit"⟩ rfl

/-- C10: every mapping the handler returns has exactly the keys
`JobRunId, Message` (success) or `Error, Message` (failure), in that
order, and no others. -/
theorem C10_exact_keys {E C : Type} (b : Boto3) (e : E) (c : C) (d : PyDict)
    (h : (lambda_handler b e c).1 = HResult.ret d) :
    d.map Prod.fst = ["JobRunId", "Message"] ∨
    d.map Prod.fst = ["Error", "Message"] := by
  cases h1 : b.client "glue" with
  | raised err =>
      by_cases he : err.isException = true
      · simp [lambda_handler, tryBody, PyOut.bind, h1, he] at h
        subst h
        right
        rfl
      · simp [lambda_handler, tryBody, PyOut.bind, h1, he] at h
  | ok gc =>
      cases h2 : gc.start_job_run "ad_etl" with
      | raised err =>
          by_cases he : err.isException = true
          · simp [lambda_handler, tryBody, PyOut.bind, h1, h2, he] at h
            subst h
            right
            rfl
          · simp [lambda_handler, tryBody, PyOut.bind, h1, h2, he] at h
      | ok resp =>
          cases h3 : resp.lookup "JobRunId" with
          | none =>
              simp [lambda_handler, tryBody, PyOut.bind, dictGet, h1, h2, h3] at h
              subst h
              right
              rfl
          | some jid =>
              simp [lambda_handler, tryBody, PyOut.bind, dictGet, h1, h2, h3] at h
              subst h
              left
              rfl

/-- C10 witness: the success mapping returned under `okBoto` has exactly
the keys `JobRunId, Message`. -/
theorem C10_witness :
    succDict.map Prod.fst = ["JobRunId", "Message"] ∨
    succDict.map Prod.fst = ["Error", "Message"] :=
  C10_exact_keys okBoto (0 : Nat) (0 : Nat) succDict rfl
